import Mathlib

/-!
Shallow embedding of `src/graph_notebook/network/EventfulNetwork.py`
(the `EventfulNetwork` class: an observer layer over a base mutable graph)
together with theorems settling the specification claims about it.

Modelling conventions:
* Python dicts are association lists `List (String × PyVal)` in insertion
  order; `dict(items)` (first-occurrence key position, last value wins) is
  `dictOf`.
* The base class `Network` is outside the module (the spec treats it as a
  black box), so its five mutating operations are parameters (`BaseOps`)
  returning `Except E G`: a failing base call is an `Except.error`.
* Listeners are abstract handles of a type `L`; Python's `callable(x)` test is
  a parameter `callable : L → Bool`; a listener invocation is recorded as a
  `ListenerCall` value (network handle, event name, payload), and whether an
  invocation raises is a parameter `run : ListenerCall G L → Option E`.
* A wrapped mutation returns a `MutResult`: either the base call failed
  (error propagates, nothing dispatched) or it succeeded with the updated
  network, the list of listener invocations made, and the error of a raising
  listener, if any, which propagates to the caller.
-/

set_option autoImplicit false

namespace GraphNotebook

/-- Python values appearing in payloads and property maps: strings, ints and
nested dicts (`isinstance(v, MutableMapping)` is the `dict` constructor). -/
inductive PyVal where
  | str (s : String)
  | int (n : Int)
  | dict (d : List (String × PyVal))
deriving Repr

mutual

/-- Decidable equality for `PyVal` (the automatic deriver does not handle the
nested occurrence under `List`). -/
def PyVal.decEq : (a b : PyVal) → Decidable (a = b)
  | .str a, .str b =>
    match String.decEq a b with
    | isTrue h => isTrue (by rw [h])
    | isFalse h => isFalse (fun hc => h (PyVal.str.inj hc))
  | .int a, .int b =>
    match Int.decEq a b with
    | isTrue h => isTrue (by rw [h])
    | isFalse h => isFalse (fun hc => h (PyVal.int.inj hc))
  | .dict a, .dict b =>
    match PyVal.decEqList a b with
    | isTrue h => isTrue (by rw [h])
    | isFalse h => isFalse (fun hc => h (PyVal.dict.inj hc))
  | .str _, .int _ => isFalse (fun hc => PyVal.noConfusion hc)
  | .str _, .dict _ => isFalse (fun hc => PyVal.noConfusion hc)
  | .int _, .str _ => isFalse (fun hc => PyVal.noConfusion hc)
  | .int _, .dict _ => isFalse (fun hc => PyVal.noConfusion hc)
  | .dict _, .str _ => isFalse (fun hc => PyVal.noConfusion hc)
  | .dict _, .int _ => isFalse (fun hc => PyVal.noConfusion hc)

/-- Decidable equality for lists of dict entries. -/
def PyVal.decEqList : (a b : List (String × PyVal)) → Decidable (a = b)
  | [], [] => isTrue rfl
  | [], _ :: _ => isFalse (fun hc => List.noConfusion hc)
  | _ :: _, [] => isFalse (fun hc => List.noConfusion hc)
  | (k, v) :: r, (k', v') :: r' =>
    match String.decEq k k', PyVal.decEq v v', PyVal.decEqList r r' with
    | isTrue h1, isTrue h2, isTrue h3 => isTrue (by rw [h1, h2, h3])
    | isFalse h1, _, _ =>
      isFalse (fun hc => h1 (congrArg (fun l => (l.headD (k, v)).1) hc))
    | _, isFalse h2, _ =>
      isFalse (fun hc => h2 (congrArg (fun l => (l.headD (k, v)).2) hc))
    | _, _, isFalse h3 =>
      isFalse (fun hc => h3 (congrArg List.tail hc))

end

instance : DecidableEq PyVal := PyVal.decEq

/-- A Python dict in insertion order. -/
abbrev Dict := List (String × PyVal)

/-- Whether a value is a mapping (`isinstance(v, collections.MutableMapping)`). -/
def PyVal.isDict : PyVal → Bool
  | .dict _ => true
  | _ => false

/-- `d[k] = v` on a Python dict: update in place if the key exists, else
append at the end. -/
def dictSet : Dict → String → PyVal → Dict
  | [], k, v => [(k, v)]
  | (k', v') :: rest, k, v =>
    if k' = k then (k', v) :: rest else (k', v') :: dictSet rest k v

/-- Python `dict(items)`: keys keep their first-occurrence position, a later
pair with the same key overwrites the value. -/
def dictOf (items : Dict) : Dict :=
  items.foldl (fun acc kv => dictSet acc kv.1 kv.2) []

/-- The characters stripped by `str(old_label).strip("[]'")`:
`[`, `]` and the single quote. -/
def stripChars : List Char := ['[', ']', Char.ofNat 39]

/-- Python `s.strip(cs)`: drop characters of the set from both ends. -/
def pyStrip (cs : List Char) (s : String) : String :=
  ⟨((s.data.dropWhile (cs.contains ·)).reverse.dropWhile (cs.contains ·)).reverse⟩

/-- Python `s[:j]` for an `int` bound `j` (a negative bound counts from the
end; out-of-range bounds clamp). -/
def pySliceTo (s : String) (j : Int) : String :=
  let j' : Int := if j < 0 then (s.length : Int) + j else j
  ⟨s.data.take j'.toNat⟩

/-- `EventfulNetwork.strip_and_truncate_label`:
`label = str(old_label).strip("[]'")`;
`return label if len(label) <= max_len else label[:max_len - 3] + '...'`. -/
def strip_and_truncate_label (old_label : String) (max_len : Int) : String :=
  let label := pyStrip stripChars old_label
  if (label.length : Int) ≤ max_len then label
  else pySliceTo label (max_len - 3) ++ "..."

/-- The item loop of `EventfulNetwork.flatten`: for each `(k, v)`,
`new_key = parent_key + sep + k if parent_key else k`; a mapping value
contributes `self.flatten(v).items()` — the recursive call passes NEITHER
`new_key` nor `sep`, so it runs with the defaults `parent_key=''`,
`sep='_'` — and a non-mapping value contributes `(new_key, v)`. -/
def flattenItems : String → String → Dict → Dict
  | _, _, [] => []
  | parent_key, sep, (k, v) :: rest =>
    let new_key := if parent_key = "" then k else parent_key ++ sep ++ k
    (match v with
     | PyVal.dict sub => dictOf (flattenItems "" "_" sub)
     | PyVal.str s => [(new_key, PyVal.str s)]
     | PyVal.int n => [(new_key, PyVal.int n)]) ++ flattenItems parent_key sep rest
termination_by _ _ d => sizeOf d
decreasing_by
  all_goals simp_wf
  all_goals omega

/-- `EventfulNetwork.flatten(d, parent_key='', sep='_')`: run the item loop
and build `dict(items)`. -/
def flatten (d : Dict) (parent_key : String := "") (sep : String := "_") : Dict :=
  dictOf (flattenItems parent_key sep d)

/-! ## Event names and the listener registry -/

def EVENT_ADD_NODE : String := "add_node"

def EVENT_ADD_NODE_DATA : String := "add_node_data"

def EVENT_ADD_NODE_PROPERTY : String := "add_node_property"

def EVENT_ADD_EDGE : String := "add_edge"

def EVENT_ADD_EDGE_DATA : String := "add_edge_data"

def VALID_EVENTS : List String :=
  [EVENT_ADD_NODE, EVENT_ADD_NODE_DATA, EVENT_ADD_NODE_PROPERTY,
   EVENT_ADD_EDGE, EVENT_ADD_EDGE_DATA]

/-- `self.callbacks`: a `defaultdict(list)` mapping event name to the ordered
list of registered listener handles, keys in insertion order. -/
abbrev Registry (L : Type) := List (String × List L)

/-- First entry for a key, `none` when absent (`event_name in self.callbacks`
is `(r.find e).isSome`). -/
def Registry.find {L : Type} : Registry L → String → Option (List L)
  | [], _ => none
  | (k, l) :: rest, e => if k = e then some l else Registry.find rest e

/-- The listener sequence an event name maps to (empty when absent, as a
`defaultdict(list)` would yield on first access). -/
def listenersFor {L : Type} (r : Registry L) (e : String) : List L :=
  (r.find e).getD []

/-- `self.callbacks[event].append(callback)` on a `defaultdict(list)`:
append to the existing entry, or create the entry (at the end, in key
insertion order) when the key is absent. -/
def appendCb {L : Type} : Registry L → String → L → Registry L
  | [], e, cb => [(e, [cb])]
  | (k, l) :: rest, e, cb =>
    if k = e then (k, l ++ [cb]) :: rest else (k, l) :: appendCb rest e cb

/-- Python errors raised by this module. `valueError msg` models
`ValueError(msg)` — the error the spec names `InvalidListener`. -/
inductive PyError where
  | valueError (msg : String)
deriving Repr, DecidableEq

/-- The state of an `EventfulNetwork`: its callback registry and the wrapped
base graph, of an abstract type `G`. `L` is the type of listener handles. -/
structure EventfulNetwork (G L : Type) where
  callbacks : Registry L
  graph : G
deriving Repr

/-- One listener invocation `c(self, event_name, data)`: the listener, the
network handle passed as first argument, the event name and the payload. -/
structure ListenerCall (G L : Type) where
  listener : L
  net : EventfulNetwork G L
  event : String
  payload : Dict
deriving Repr

/-- `EventfulNetwork.register_callback(event, callback)`: raise
`ValueError("callback must be callable.")` when `callback` is not callable,
else append it to the event's listener list. `callable` is the Python
`callable(...)` test on listener handles. -/
def register_callback {G L : Type} (callable : L → Bool)
    (self : EventfulNetwork G L) (event : String) (cb : L) :
    Except PyError (EventfulNetwork G L) :=
  if callable cb then
    .ok { self with callbacks := appendCb self.callbacks event cb }
  else
    .error (.valueError "callback must be callable.")

/-- `EventfulNetwork.register_universal_callback(callback)`: raise
`ValueError("callback must be callable")` when not callable, else call
`register_callback` once per event name in `VALID_EVENTS`, in order. -/
def register_universal_callback {G L : Type} (callable : L → Bool)
    (self : EventfulNetwork G L) (cb : L) :
    Except PyError (EventfulNetwork G L) :=
  if callable cb then
    VALID_EVENTS.foldlM (fun s e => register_callback callable s e cb) self
  else
    .error (.valueError "callback must be callable")

/-! ## Dispatch -/

/-- The `for c in self.callbacks[event_name]: c(self, event_name, data)`
loop. `run` says whether an invocation raises (`some err`) or returns
(`none`); listeners are observers, so an invocation is recorded as a
`ListenerCall` and does not change the network. An uncaught listener error
stops the loop: the remaining listeners are never invoked. Returns the
invocations made, in order, and the propagating error, if any. -/
def runCallbacks {G L E : Type} (run : ListenerCall G L → Option E)
    (self : EventfulNetwork G L) (event : String) (data : Dict) :
    List L → List (ListenerCall G L) × Option E
  | [] => ([], none)
  | c :: cs =>
    let call : ListenerCall G L := ⟨c, self, event, data⟩
    match run call with
    | some err => ([call], some err)
    | none =>
      let rest := runCallbacks run self event data cs
      (call :: rest.1, rest.2)

/-- `EventfulNetwork.dispatch_callbacks(event_name, data)`: when
`event_name in self.callbacks`, run the listener loop over its list;
otherwise do nothing. -/
def dispatch_callbacks {G L E : Type} (run : ListenerCall G L → Option E)
    (self : EventfulNetwork G L) (event_name : String) (data : Dict) :
    List (ListenerCall G L) × Option E :=
  match self.callbacks.find event_name with
  | some cbs => runCallbacks run self event_name data cbs
  | none => ([], none)

/-! ## Wrapped mutations -/

/-- The base class `Network`'s mutating operations, the black box this layer
wraps: each takes the current base graph and returns the new graph or raises
(`Except.error`). -/
structure BaseOps (G E : Type) where
  add_node : G → String → Dict → Except E G
  add_node_data : G → String → Dict → Except E G
  add_node_property : G → String → String → String → Except E G
  add_edge : G → String → String → String → String → Dict → Except E G
  add_edge_data : G → String → String → String → Dict → Except E G

/-- Outcome of a wrapped mutation: `baseFailed err` when the forwarded base
call raised (the error propagates; nothing was dispatched), or `ok self'
calls lerr` when it succeeded — `self'` the updated network, `calls` the
listener invocations dispatch made, and `lerr` the uncaught error of a
raising listener (propagating to the caller), if any. -/
inductive MutResult (G L E : Type) where
  | baseFailed (err : E)
  | ok (self : EventfulNetwork G L) (calls : List (ListenerCall G L))
      (listenerErr : Option E)
deriving Repr

/-- The listener invocations a wrapped mutation performed (none when the
base call failed). -/
def MutResult.calls {G L E : Type} : MutResult G L E → List (ListenerCall G L)
  | .baseFailed _ => []
  | .ok _ calls _ => calls

/-- `EventfulNetwork.add_node(node_id, data=None)`: default `data` to `{}`,
forward to `super().add_node(node_id, data)`, then dispatch
`{'node_id': node_id, 'data': data}` on `EVENT_ADD_NODE`. -/
def add_node {G L E : Type} (base : BaseOps G E)
    (run : ListenerCall G L → Option E) (self : EventfulNetwork G L)
    (node_id : String) (data? : Option Dict) : MutResult G L E :=
  let data := data?.getD []
  match base.add_node self.graph node_id data with
  | .error e => .baseFailed e
  | .ok g' =>
    let self' := { self with graph := g' }
    let payload : Dict := [("node_id", .str node_id), ("data", .dict data)]
    let r := dispatch_callbacks run self' EVENT_ADD_NODE payload
    .ok self' r.1 r.2

/-- `EventfulNetwork.add_node_data(node_id, data=None)`: default `data` to
`{}`, forward to `super().add_node_data(node_id, data)`, then dispatch
`{'node_id': node_id, 'data': data}` on `EVENT_ADD_NODE_DATA`. -/
def add_node_data {G L E : Type} (base : BaseOps G E)
    (run : ListenerCall G L → Option E) (self : EventfulNetwork G L)
    (node_id : String) (data? : Option Dict) : MutResult G L E :=
  let data := data?.getD []
  match base.add_node_data self.graph node_id data with
  | .error e => .baseFailed e
  | .ok g' =>
    let self' := { self with graph := g' }
    let d : Dict := [("node_id", .str node_id), ("data", .dict data)]
    let r := dispatch_callbacks run self' EVENT_ADD_NODE_DATA d
    .ok self' r.1 r.2

/-- `EventfulNetwork.add_node_property(node_id, key, value)`: forward to
`super().add_node_property(node_id, key, value)`, then dispatch
`{'node_id': node_id, 'key': key, 'value': value}` on
`EVENT_ADD_NODE_PROPERTY`. -/
def add_node_property {G L E : Type} (base : BaseOps G E)
    (run : ListenerCall G L → Option E) (self : EventfulNetwork G L)
    (node_id : String) (key : String) (value : String) : MutResult G L E :=
  match base.add_node_property self.graph node_id key value with
  | .error e => .baseFailed e
  | .ok g' =>
    let self' := { self with graph := g' }
    let data : Dict :=
      [("node_id", .str node_id), ("key", .str key), ("value", .str value)]
    let r := dispatch_callbacks run self' EVENT_ADD_NODE_PROPERTY data
    .ok self' r.1 r.2

/-- `EventfulNetwork.add_edge(from_id, to_id, edge_id, label, data=None)`:
default `data` to `{}`, forward to `super().add_edge(...)`, then dispatch
`{'from_id': .., 'to_id': .., 'edge_id': .., 'label': .., 'data': ..}` on
`EVENT_ADD_EDGE`. -/
def add_edge {G L E : Type} (base : BaseOps G E)
    (run : ListenerCall G L → Option E) (self : EventfulNetwork G L)
    (from_id : String) (to_id : String) (edge_id : String) (label : String)
    (data? : Option Dict) : MutResult G L E :=
  let data := data?.getD []
  match base.add_edge self.graph from_id to_id edge_id label data with
  | .error e => .baseFailed e
  | .ok g' =>
    let self' := { self with graph := g' }
    let payload : Dict :=
      [("from_id", .str from_id), ("to_id", .str to_id),
       ("edge_id", .str edge_id), ("label", .str label), ("data", .dict data)]
    let r := dispatch_callbacks run self' EVENT_ADD_EDGE payload
    .ok self' r.1 r.2

/-- `EventfulNetwork.add_edge_data(from_id, to_id, edge_id, data=None)`:
default `data` to `{}`, forward to `super().add_edge_data(...)`, then
dispatch `{'from_id': .., 'to_id': .., 'edge_id': .., 'data': ..}` on
`EVENT_ADD_EDGE_DATA`. -/
def add_edge_data {G L E : Type} (base : BaseOps G E)
    (run : ListenerCall G L → Option E) (self : EventfulNetwork G L)
    (from_id : String) (to_id : String) (edge_id : String)
    (data? : Option Dict) : MutResult G L E :=
  let data := data?.getD []
  match base.add_edge_data self.graph from_id to_id edge_id data with
  | .error e => .baseFailed e
  | .ok g' =>
    let self' := { self with graph := g' }
    let d : Dict :=
      [("from_id", .str from_id), ("to_id", .str to_id),
       ("edge_id", .str edge_id), ("data", .dict data)]
    let r := dispatch_callbacks run self' EVENT_ADD_EDGE_DATA d
    .ok self' r.1 r.2

/-! ## Auxiliary definitions used by the verification -/

/-- A dict is flat when none of its values is a nested mapping. -/
def isFlat (d : Dict) : Bool := d.all (fun kv => !kv.2.isDict)

/-- The network state a caller observes after a registration call: the new
state on success; on an exception the registry was never touched, so the
state is the original one. -/
def afterReg {G L : Type} (self : EventfulNetwork G L)
    (r : Except PyError (EventfulNetwork G L)) : EventfulNetwork G L :=
  match r with
  | .ok s' => s'
  | .error _ => self

/-- The registry produced by registering one listener for every valid event
on a fresh network: each of the five kinds maps to `[cb]`. -/
def universalRegistry {L : Type} (cb : L) : Registry L :=
  [(EVENT_ADD_NODE, [cb]), (EVENT_ADD_NODE_DATA, [cb]),
   (EVENT_ADD_NODE_PROPERTY, [cb]), (EVENT_ADD_EDGE, [cb]),
   (EVENT_ADD_EDGE_DATA, [cb])]

/-- A concrete base graph over `Nat` whose operations always succeed (used
to instantiate theorems at concrete inputs). -/
def baseOk : BaseOps Nat String where
  add_node := fun g _ _ => .ok (g + 1)
  add_node_data := fun g _ _ => .ok (g + 2)
  add_node_property := fun g _ _ _ => .ok (g + 3)
  add_edge := fun g _ _ _ _ _ => .ok (g + 4)
  add_edge_data := fun g _ _ _ _ => .ok (g + 5)

/-- A concrete base graph over `Nat` whose operations always fail (used to
instantiate theorems at concrete inputs). -/
def baseFail : BaseOps Nat String where
  add_node := fun _ _ _ => .error "node failure"
  add_node_data := fun _ _ _ => .error "node data failure"
  add_node_property := fun _ _ _ _ => .error "node property failure"
  add_edge := fun _ _ _ _ _ _ => .error "edge failure"
  add_edge_data := fun _ _ _ _ _ => .error "edge data failure"

/-! ## Helper lemmas -/

theorem isFlat_cons {k : String} {v : PyVal} {d : Dict} :
    isFlat ((k, v) :: d) = (!v.isDict && isFlat d) := rfl

theorem dictSet_map_fst_of_mem {d : Dict} {k : String} (v : PyVal)
    (h : k ∈ d.map Prod.fst) :
    (dictSet d k v).map Prod.fst = d.map Prod.fst := by
  induction d with
  | nil => simp at h
  | cons kv rest ih =>
    obtain ⟨k', v'⟩ := kv
    by_cases hk : k' = k
    · simp [dictSet, hk]
    · rw [List.map_cons] at h
      rcases List.mem_cons.mp h with h1 | h2
      · exact absurd h1.symm hk
      · simp [dictSet, hk, ih h2]

theorem dictSet_of_not_mem {d : Dict} {k : String} (v : PyVal)
    (h : k ∉ d.map Prod.fst) :
    dictSet d k v = d ++ [(k, v)] := by
  induction d with
  | nil => rfl
  | cons kv rest ih =>
    obtain ⟨k', v'⟩ := kv
    rw [List.map_cons, List.mem_cons, not_or] at h
    have h1 : ¬ k' = k := fun hc => h.1 hc.symm
    simp only [dictSet, if_neg h1, ih h.2, List.cons_append]

theorem dictSet_nodup {d : Dict} (k : String) (v : PyVal)
    (h : (d.map Prod.fst).Nodup) :
    ((dictSet d k v).map Prod.fst).Nodup := by
  by_cases hk : k ∈ d.map Prod.fst
  · rw [dictSet_map_fst_of_mem v hk]; exact h
  · rw [dictSet_of_not_mem v hk, List.map_append]
    refine List.Nodup.append h (List.nodup_singleton _) ?_
    intro a ha hb
    rw [show (List.map Prod.fst [(k, v)] : List String) = [k] from rfl,
      List.mem_singleton] at hb
    exact hk (hb ▸ ha)

theorem foldl_dictSet_nodup :
    ∀ (items acc : Dict), (acc.map Prod.fst).Nodup →
    ((items.foldl (fun a kv => dictSet a kv.1 kv.2) acc).map Prod.fst).Nodup
  | [], _, h => h
  | _ :: rest, _, h =>
    foldl_dictSet_nodup rest _ (dictSet_nodup _ _ h)

theorem dictOf_nodup (items : Dict) : ((dictOf items).map Prod.fst).Nodup :=
  foldl_dictSet_nodup items [] (by simp)

theorem foldl_dictSet_eq_append :
    ∀ (items acc : Dict), ((acc ++ items).map Prod.fst).Nodup →
    items.foldl (fun a kv => dictSet a kv.1 kv.2) acc = acc ++ items
  | [], _, _ => by simp
  | (k, v) :: rest, acc, h => by
    have h' := h
    rw [List.map_append, List.map_cons] at h'
    obtain ⟨h1, h2, hdisj⟩ := List.nodup_append.mp h'
    have hk : k ∉ acc.map Prod.fst :=
      fun hc => hdisj hc (List.mem_cons_self _ _)
    have hstep : dictSet acc k v = acc ++ [(k, v)] := dictSet_of_not_mem v hk
    have hrec := foldl_dictSet_eq_append rest (acc ++ [(k, v)]) (by
      rw [List.append_assoc, List.singleton_append]; exact h)
    simp only [List.foldl_cons, hstep, hrec, List.append_assoc,
      List.singleton_append]

theorem dictOf_eq_self {d : Dict} (h : (d.map Prod.fst).Nodup) :
    dictOf d = d := by
  simpa using foldl_dictSet_eq_append d [] (by simpa using h)

theorem isFlat_dictSet {d : Dict} {k : String} {v : PyVal}
    (hd : isFlat d = true) (hv : v.isDict = false) :
    isFlat (dictSet d k v) = true := by
  induction d with
  | nil =>
    show isFlat [(k, v)] = true
    rw [isFlat_cons, hv]
    rfl
  | cons kv rest ih =>
    obtain ⟨k', v'⟩ := kv
    rw [isFlat_cons, Bool.and_eq_true, Bool.not_eq_true'] at hd
    by_cases hk : k' = k
    · simp only [dictSet, if_pos hk]
      rw [isFlat_cons, hv]
      exact hd.2
    · simp only [dictSet, if_neg hk]
      rw [isFlat_cons, hd.1, ih hd.2]
      rfl

theorem isFlat_foldl_dictSet :
    ∀ (items acc : Dict), isFlat acc = true → isFlat items = true →
    isFlat (items.foldl (fun a kv => dictSet a kv.1 kv.2) acc) = true
  | [], _, ha, _ => ha
  | (k, v) :: rest, acc, ha, hi => by
    rw [isFlat_cons, Bool.and_eq_true, Bool.not_eq_true'] at hi
    exact isFlat_foldl_dictSet rest _ (isFlat_dictSet ha hi.1) hi.2

theorem isFlat_dictOf {items : Dict} (h : isFlat items = true) :
    isFlat (dictOf items) = true :=
  isFlat_foldl_dictSet items [] rfl h

theorem isFlat_append {a b : Dict} :
    isFlat (a ++ b) = (isFlat a && isFlat b) := by
  simp only [isFlat, List.all_append]

theorem isFlat_flattenItems (pk sep : String) (d : Dict) :
    isFlat (flattenItems pk sep d) = true := by
  induction pk, sep, d using flattenItems.induct with
  | case1 pk sep =>
    simp only [flattenItems]
    rfl
  | case2 pk sep k v rest ihsub ihrest =>
    cases v with
    | str s =>
      simp only [flattenItems]
      rw [isFlat_append, Bool.and_eq_true]
      exact ⟨rfl, ihrest⟩
    | int n =>
      simp only [flattenItems]
      rw [isFlat_append, Bool.and_eq_true]
      exact ⟨rfl, ihrest⟩
    | dict sub =>
      simp only [flattenItems]
      rw [isFlat_append, Bool.and_eq_true]
      exact ⟨isFlat_dictOf ihsub, ihrest⟩

theorem flattenItems_flat_id :
    ∀ (d : Dict), isFlat d = true → flattenItems "" "_" d = d
  | [], _ => by simp [flattenItems]
  | (k, v) :: rest, h => by
    rw [isFlat_cons, Bool.and_eq_true, Bool.not_eq_true'] at h
    have hrest := flattenItems_flat_id rest h.2
    cases v with
    | str s => simp [flattenItems, hrest]
    | int n => simp [flattenItems, hrest]
    | dict sub => exact Bool.noConfusion h.1

theorem flatten_flat_id {d : Dict} (hnd : (d.map Prod.fst).Nodup)
    (hf : isFlat d = true) : flatten d = d := by
  unfold flatten
  rw [flattenItems_flat_id d hf, dictOf_eq_self hnd]

/-! ## Claims about the auxiliary utilities -/

/-- Claim C4: the spec claims `flatten` joins parent and child keys with an
underscore, so that flattening `{"a": {"b": 1, "c": 2}, "d": 3}` yields
`{"a_b": 1, "a_c": 2, "d": 3}`. The code's recursive call drops the parent
key (contradicting its own docstring), so the result is
`{"b": 1, "c": 2, "d": 3}` — the keys of the nested dict appear without the
`a_` prefix. -/
theorem flatten_drops_parent_key :
    flatten [("a", PyVal.dict [("b", PyVal.int 1), ("c", PyVal.int 2)]),
             ("d", PyVal.int 3)]
      = [("b", PyVal.int 1), ("c", PyVal.int 2), ("d", PyVal.int 3)] ∧
    flatten [("a", PyVal.dict [("b", PyVal.int 1), ("c", PyVal.int 2)]),
             ("d", PyVal.int 3)]
      ≠ [("a_b", PyVal.int 1), ("a_c", PyVal.int 2), ("d", PyVal.int 3)] := by
  have h : flatten [("a", PyVal.dict [("b", PyVal.int 1), ("c", PyVal.int 2)]),
      ("d", PyVal.int 3)]
      = [("b", PyVal.int 1), ("c", PyVal.int 2), ("d", PyVal.int 3)] := by
    simp [flatten, flattenItems, dictOf, dictSet]
  exact ⟨h, by rw [h]; decide⟩

/-- Claim C8: label truncation strips leading/trailing `[`, `]`, `'` characters,
returns the stripped label unchanged when its length is at most the maximum,
and otherwise truncates it to `max − 3` characters and appends `"..."`; in
particular `"[verylongname]"` at maximum 10 becomes `"verylon..."`. -/
theorem strip_and_truncate_label_spec :
    strip_and_truncate_label "[verylongname]" 10 = "verylon..." ∧
    (∀ (lbl : String) (m : Int),
      ((pyStrip stripChars lbl).length : Int) ≤ m →
      strip_and_truncate_label lbl m = pyStrip stripChars lbl) ∧
    (∀ (lbl : String) (m : Int), 3 ≤ m →
      m < ((pyStrip stripChars lbl).length : Int) →
      strip_and_truncate_label lbl m =
        (⟨(pyStrip stripChars lbl).data.take (m - 3).toNat⟩ : String)
          ++ "...") := by
  refine ⟨rfl, ?_, ?_⟩
  · intro lbl m h
    simp only [strip_and_truncate_label, if_pos h]
  · intro lbl m h3 hlen
    have hnotle : ¬ ((pyStrip stripChars lbl).length : Int) ≤ m := by omega
    have hneg : ¬ (m - 3 < 0) := by omega
    simp only [strip_and_truncate_label, if_neg hnotle, pySliceTo,
      if_neg hneg]

/-- Witness for C8 at concrete inputs. -/
theorem strip_and_truncate_label_spec_witness :
    strip_and_truncate_label "[abc]" 10 = pyStrip stripChars "[abc]" ∧
    strip_and_truncate_label "abcdefgh" 5 =
      (⟨(pyStrip stripChars "abcdefgh").data.take ((5 : Int) - 3).toNat⟩ :
        String) ++ "..." :=
  ⟨strip_and_truncate_label_spec.2.1 "[abc]" 10 (by decide),
   strip_and_truncate_label_spec.2.2 "abcdefgh" 5 (by decide) (by decide)⟩

/-- Claim C10: `flatten` is the identity on flat dicts (no value a nested
mapping, keys distinct as in any real dict), and is idempotent on every
dict. -/
theorem flatten_flat_identity_and_idempotent :
    (∀ d : Dict, (d.map Prod.fst).Nodup → isFlat d = true → flatten d = d) ∧
    (∀ d : Dict, flatten (flatten d) = flatten d) := by
  refine ⟨fun d hnd hf => flatten_flat_id hnd hf, fun d => ?_⟩
  exact flatten_flat_id (dictOf_nodup _) (isFlat_dictOf (isFlat_flattenItems _ _ _))

/-- Witness for C10 at concrete inputs. -/
theorem flatten_flat_identity_and_idempotent_witness :
    flatten [("a", PyVal.int 1), ("b", PyVal.str "x")]
      = [("a", PyVal.int 1), ("b", PyVal.str "x")] ∧
    flatten (flatten [("x", PyVal.dict [("y", PyVal.int 2)])])
      = flatten [("x", PyVal.dict [("y", PyVal.int 2)])] :=
  ⟨flatten_flat_identity_and_idempotent.1 [("a", PyVal.int 1), ("b", PyVal.str "x")]
      (by decide) (by decide),
   flatten_flat_identity_and_idempotent.2 [("x", PyVal.dict [("y", PyVal.int 2)])]⟩

theorem runCallbacks_all_ok {G L E : Type} (run : ListenerCall G L → Option E)
    (self : EventfulNetwork G L) (e : String) (data : Dict) :
    ∀ (cbs : List L), (∀ c ∈ cbs, run ⟨c, self, e, data⟩ = none) →
    runCallbacks run self e data cbs
      = (cbs.map (fun c => ⟨c, self, e, data⟩), none)
  | [], _ => rfl
  | c :: cs, h => by
    have hc : run ⟨c, self, e, data⟩ = none := h c (List.mem_cons_self _ _)
    have hrest := runCallbacks_all_ok run self e data cs
      (fun x hx => h x (List.mem_cons_of_mem _ hx))
    simp [runCallbacks, hc, hrest]

theorem runCallbacks_abort {G L E : Type} (run : ListenerCall G L → Option E)
    (self : EventfulNetwork G L) (e : String) (data : Dict) (c : L)
    (l2 : List L) (err : E) :
    ∀ (l1 : List L), (∀ x ∈ l1, run ⟨x, self, e, data⟩ = none) →
    run ⟨c, self, e, data⟩ = some err →
    runCallbacks run self e data (l1 ++ c :: l2)
      = (l1.map (fun x => ⟨x, self, e, data⟩) ++ [⟨c, self, e, data⟩],
         some err)
  | [], _, hc => by simp [runCallbacks, hc]
  | x :: xs, h1, hc => by
    have hx : run ⟨x, self, e, data⟩ = none := h1 x (List.mem_cons_self _ _)
    have hrest := runCallbacks_abort run self e data c l2 err xs
      (fun y hy => h1 y (List.mem_cons_of_mem _ hy)) hc
    simp [runCallbacks, hx, hrest]

theorem dispatch_all_ok {G L E : Type} (run : ListenerCall G L → Option E)
    (self : EventfulNetwork G L) (e : String) (data : Dict)
    (h : ∀ c ∈ listenersFor self.callbacks e, run ⟨c, self, e, data⟩ = none) :
    dispatch_callbacks run self e data
      = ((listenersFor self.callbacks e).map (fun c => ⟨c, self, e, data⟩),
         none) := by
  cases hf : self.callbacks.find e with
  | none =>
    have hl : listenersFor self.callbacks e = [] := by
      rw [listenersFor, hf]; rfl
    simp [dispatch_callbacks, hf, hl]
  | some cbs =>
    have hl : listenersFor self.callbacks e = cbs := by
      rw [listenersFor, hf]; rfl
    rw [hl] at h
    simp [dispatch_callbacks, hf, hl, runCallbacks_all_ok run self e data cbs h]

theorem appendCb_find_self {L : Type} :
    ∀ (r : Registry L) (e : String) (cb : L),
    (appendCb r e cb).find e = some (listenersFor r e ++ [cb])
  | [], e, cb => by simp [appendCb, Registry.find, listenersFor]
  | (k, l) :: rest, e, cb => by
    by_cases hk : k = e
    · simp [appendCb, hk, Registry.find, listenersFor]
    · simp [appendCb, hk, Registry.find, listenersFor,
        appendCb_find_self rest e cb]

theorem appendCb_find_other {L : Type} :
    ∀ (r : Registry L) (e k' : String) (cb : L), k' ≠ e →
    (appendCb r e cb).find k' = r.find k'
  | [], e, k', cb, h => by simp [appendCb, Registry.find, Ne.symm h]
  | (k, l) :: rest, e, k', cb, h => by
    by_cases hk : k = e
    · simp [appendCb, hk, Registry.find, Ne.symm h]
    · simp only [appendCb, if_neg hk, Registry.find,
        appendCb_find_other rest e k' cb h]

theorem listenersFor_appendCb_self {L : Type} (r : Registry L) (e : String)
    (cb : L) :
    listenersFor (appendCb r e cb) e = listenersFor r e ++ [cb] := by
  rw [listenersFor, appendCb_find_self]
  rfl

theorem listenersFor_appendCb_other {L : Type} (r : Registry L)
    (e k' : String) (cb : L) (h : k' ≠ e) :
    listenersFor (appendCb r e cb) k' = listenersFor r k' := by
  rw [listenersFor, appendCb_find_other r e k' cb h, listenersFor]

theorem register_callback_ok {G L : Type} (callable : L → Bool)
    (self : EventfulNetwork G L) (event : String) (cb : L)
    (h : callable cb = true) :
    register_callback callable self event cb
      = .ok { self with callbacks := appendCb self.callbacks event cb } := by
  rw [register_callback, h]
  rfl

/-! ## Claims about registration and dispatch -/

/-- Claim C2: for every event kind, dispatch invokes exactly the listeners in the
registry's sequence for that kind, one invocation per occurrence, in
registration (FIFO) order, passing (network handle, event kind, payload); a
listener occurring twice is invoked twice, and an empty sequence makes
dispatch a no-op, not an error. -/
theorem dispatch_callbacks_spec {G L E : Type} [DecidableEq L]
    (run : ListenerCall G L → Option E) (self : EventfulNetwork G L)
    (e : String) (data : Dict)
    (h : ∀ c ∈ listenersFor self.callbacks e, run ⟨c, self, e, data⟩ = none) :
    (dispatch_callbacks run self e data).1
      = (listenersFor self.callbacks e).map (fun c => ⟨c, self, e, data⟩) ∧
    (dispatch_callbacks run self e data).2 = none ∧
    (∀ c : L, ((dispatch_callbacks run self e data).1.map
        ListenerCall.listener).count c
      = (listenersFor self.callbacks e).count c) ∧
    (listenersFor self.callbacks e = [] →
      dispatch_callbacks run self e data = ([], none)) := by
  have hd := dispatch_all_ok run self e data h
  refine ⟨by rw [hd], by rw [hd], ?_, ?_⟩
  · intro c
    rw [hd]
    simp only [List.map_map, Function.comp_def]
    simp
  · intro hl
    rw [hd, hl]
    rfl

/-- Witness for C2, with the same listener registered twice for one kind:
both occurrences are invoked, and the dispatch is a no-op on a kind with no
listeners. -/
theorem dispatch_callbacks_spec_witness :
    (dispatch_callbacks (G := Nat) (E := String) (fun _ => none)
        ⟨[("add_node", [7, 7])], 0⟩ "add_node" []).1
      = (listenersFor (L := Nat) [("add_node", [7, 7])] "add_node").map
          (fun c => ⟨c, ⟨[("add_node", [7, 7])], 0⟩, "add_node", []⟩) ∧
    ((dispatch_callbacks (G := Nat) (E := String) (fun _ => none)
        ⟨[("add_node", [7, 7])], 0⟩ "add_node" []).1.map
        ListenerCall.listener).count 7
      = (listenersFor (L := Nat) [("add_node", [7, 7])] "add_node").count 7 ∧
    dispatch_callbacks (G := Nat) (E := String) (fun _ => none)
        ⟨[("add_node", [7, 7])], 0⟩ "add_edge" [] = ([], none) := by
  have h := dispatch_callbacks_spec (G := Nat) (E := String) (fun _ => none)
    ⟨[("add_node", [7, 7])], 0⟩ "add_node" [] (fun c _ => rfl)
  have h2 := dispatch_callbacks_spec (G := Nat) (E := String) (fun _ => none)
    ⟨[("add_node", [7, 7])], 0⟩ "add_edge" [] (fun c _ => rfl)
  exact ⟨h.1, h.2.2.1 7, h2.2.2.2 rfl⟩

/-- Claim C6: registering a non-callable listener fails with the InvalidListener
error (`ValueError("callback must be callable.")`) and the registry the
caller observes after the failed call is unchanged, in particular every
kind's listener count. -/
theorem register_callback_non_callable {G L : Type} (callable : L → Bool)
    (self : EventfulNetwork G L) (event : String) (cb : L)
    (h : callable cb = false) :
    register_callback callable self event cb
      = .error (PyError.valueError "callback must be callable.") ∧
    (afterReg self (register_callback callable self event cb)).callbacks
      = self.callbacks ∧
    ∀ k : String,
      (listenersFor
          (afterReg self (register_callback callable self event cb)).callbacks
          k).length
        = (listenersFor self.callbacks k).length := by
  have he : register_callback callable self event cb
      = .error (PyError.valueError "callback must be callable.") := by
    rw [register_callback, h]
    rfl
  refine ⟨he, by rw [he]; rfl, fun k => by rw [he]; rfl⟩

/-- Witness for C6 at a concrete non-callable argument. -/
theorem register_callback_non_callable_witness :
    register_callback (G := Nat) (fun _ => false) ⟨[], 0⟩ "add_node" (3 : Nat)
      = .error (PyError.valueError "callback must be callable.") ∧
    (listenersFor
        (afterReg (G := Nat) ⟨[], 0⟩
          (register_callback (fun _ => false) ⟨[], 0⟩ "add_node"
            (3 : Nat))).callbacks
        "add_node").length
      = (listenersFor (L := Nat) [] "add_node").length := by
  have h := register_callback_non_callable (G := Nat) (fun _ => false)
    ⟨[], 0⟩ "add_node" (3 : Nat) rfl
  exact ⟨h.1, h.2.2 "add_node"⟩

/-- Claim C9: a successful register appends the listener at the end of that
kind's sequence and leaves every other kind's sequence unchanged. -/
theorem register_callback_appends {G L : Type} (callable : L → Bool)
    (self : EventfulNetwork G L) (k : String) (cb : L)
    (h : callable cb = true) :
    register_callback callable self k cb
      = .ok { self with callbacks := appendCb self.callbacks k cb } ∧
    listenersFor (appendCb self.callbacks k cb) k
      = listenersFor self.callbacks k ++ [cb] ∧
    ∀ k' : String, k' ≠ k →
      listenersFor (appendCb self.callbacks k cb) k'
        = listenersFor self.callbacks k' := by
  exact ⟨register_callback_ok callable self k cb h,
    listenersFor_appendCb_self _ _ _,
    fun k' hk => listenersFor_appendCb_other _ _ _ _ hk⟩

/-- Witness for C9 at a concrete registry: registering for `add_edge`
appends there and leaves `add_node` untouched. -/
theorem register_callback_appends_witness :
    register_callback (G := Nat) (fun _ => true)
        ⟨[("add_node", [1])], 0⟩ "add_edge" (2 : Nat)
      = .ok ⟨appendCb [("add_node", [1])] "add_edge" 2, 0⟩ ∧
    listenersFor (appendCb (L := Nat) [("add_node", [1])] "add_edge" 2)
        "add_edge"
      = listenersFor (L := Nat) [("add_node", [1])] "add_edge" ++ [2] ∧
    listenersFor (appendCb (L := Nat) [("add_node", [1])] "add_edge" 2)
        "add_node"
      = listenersFor (L := Nat) [("add_node", [1])] "add_node" := by
  have h := register_callback_appends (G := Nat) (fun _ => true)
    ⟨[("add_node", [1])], 0⟩ "add_edge" (2 : Nat) rfl
  exact ⟨h.1, h.2.1, h.2.2 "add_node" (by decide)⟩

/-- Claim C1: when the forwarded base-graph operation fails, each wrapped
mutation propagates that same error unchanged and no listener is
invoked. -/
theorem mutation_base_failure_no_dispatch {G L E : Type}
    (base : BaseOps G E) (run : ListenerCall G L → Option E)
    (self : EventfulNetwork G L) :
    (∀ (node_id : String) (data? : Option Dict) (err : E),
      base.add_node self.graph node_id (data?.getD []) = .error err →
      add_node base run self node_id data? = .baseFailed err ∧
      (add_node base run self node_id data?).calls = []) ∧
    (∀ (node_id : String) (data? : Option Dict) (err : E),
      base.add_node_data self.graph node_id (data?.getD []) = .error err →
      add_node_data base run self node_id data? = .baseFailed err ∧
      (add_node_data base run self node_id data?).calls = []) ∧
    (∀ (node_id key value : String) (err : E),
      base.add_node_property self.graph node_id key value = .error err →
      add_node_property base run self node_id key value = .baseFailed err ∧
      (add_node_property base run self node_id key value).calls = []) ∧
    (∀ (from_id to_id edge_id label : String) (data? : Option Dict)
       (err : E),
      base.add_edge self.graph from_id to_id edge_id label (data?.getD [])
        = .error err →
      add_edge base run self from_id to_id edge_id label data?
        = .baseFailed err ∧
      (add_edge base run self from_id to_id edge_id label data?).calls
        = []) ∧
    (∀ (from_id to_id edge_id : String) (data? : Option Dict) (err : E),
      base.add_edge_data self.graph from_id to_id edge_id (data?.getD [])
        = .error err →
      add_edge_data base run self from_id to_id edge_id data?
        = .baseFailed err ∧
      (add_edge_data base run self from_id to_id edge_id data?).calls
        = []) := by
  refine ⟨fun nid d? err hb => ?_, fun nid d? err hb => ?_,
    fun nid k v err hb => ?_, fun f t e l d? err hb => ?_,
    fun f t e d? err hb => ?_⟩
  all_goals
    refine (fun hmain => ⟨hmain, by rw [hmain]; rfl⟩) ?_
  · simp [add_node, hb]
  · simp [add_node_data, hb]
  · simp [add_node_property, hb]
  · simp [add_edge, hb]
  · simp [add_edge_data, hb]

/-- Witness for C1: every wrapped mutation on an always-failing base graph
reports the base failure. -/
theorem mutation_base_failure_no_dispatch_witness :
    add_node baseFail (L := Nat) (fun _ => none) ⟨[("add_node", [7])], 0⟩
        "n" none
      = .baseFailed "node failure" ∧
    add_node_data baseFail (L := Nat) (fun _ => none)
        ⟨[("add_node_data", [7])], 0⟩ "n" none
      = .baseFailed "node data failure" ∧
    add_node_property baseFail (L := Nat) (fun _ => none)
        ⟨[("add_node_property", [7])], 0⟩ "n" "k" "v"
      = .baseFailed "node property failure" ∧
    add_edge baseFail (L := Nat) (fun _ => none)
        ⟨[("add_edge", [7])], 0⟩ "a" "b" "e1" "lbl" none
      = .baseFailed "edge failure" ∧
    add_edge_data baseFail (L := Nat) (fun _ => none)
        ⟨[("add_edge_data", [7])], 0⟩ "a" "b" "e1" none
      = .baseFailed "edge data failure" := by
  refine ⟨?_, ?_, ?_, ?_, ?_⟩
  · exact ((mutation_base_failure_no_dispatch baseFail (fun _ => none)
      ⟨[("add_node", [7])], 0⟩).1 "n" none "node failure" rfl).1
  · exact ((mutation_base_failure_no_dispatch baseFail (fun _ => none)
      ⟨[("add_node_data", [7])], 0⟩).2.1 "n" none "node data failure" rfl).1
  · exact ((mutation_base_failure_no_dispatch baseFail (fun _ => none)
      ⟨[("add_node_property", [7])], 0⟩).2.2.1 "n" "k" "v"
      "node property failure" rfl).1
  · exact ((mutation_base_failure_no_dispatch baseFail (fun _ => none)
      ⟨[("add_edge", [7])], 0⟩).2.2.2.1 "a" "b" "e1" "lbl" none
      "edge failure" rfl).1
  · exact ((mutation_base_failure_no_dispatch baseFail (fun _ => none)
      ⟨[("add_edge_data", [7])], 0⟩).2.2.2.2 "a" "b" "e1" none
      "edge data failure" rfl).1

/-- Claim C3: every wrapped mutation defaults an omitted optional data argument
to an empty dict, forwards the given arguments to the corresponding base
operation, and dispatches a payload with exactly the schema table's fields
for its kind; each listener registered for the kind is invoked once per
registration, with that payload. -/
theorem mutation_payload_schema {G L E : Type}
    (base : BaseOps G E) (run : ListenerCall G L → Option E)
    (self : EventfulNetwork G L)
    (hrun : ∀ c, run c = none) :
    (∀ node_id : String,
      add_node base run self node_id none
        = add_node base run self node_id (some [])) ∧
    (∀ node_id : String,
      add_node_data base run self node_id none
        = add_node_data base run self node_id (some [])) ∧
    (∀ from_id to_id edge_id label : String,
      add_edge base run self from_id to_id edge_id label none
        = add_edge base run self from_id to_id edge_id label (some [])) ∧
    (∀ from_id to_id edge_id : String,
      add_edge_data base run self from_id to_id edge_id none
        = add_edge_data base run self from_id to_id edge_id (some [])) ∧
    (∀ (node_id : String) (data? : Option Dict) (g' : G),
      base.add_node self.graph node_id (data?.getD []) = .ok g' →
      add_node base run self node_id data?
        = .ok { self with graph := g' }
            ((listenersFor self.callbacks EVENT_ADD_NODE).map
              (fun c => ⟨c, { self with graph := g' }, EVENT_ADD_NODE,
                [("node_id", .str node_id),
                 ("data", .dict (data?.getD []))]⟩))
            none) ∧
    (∀ (node_id : String) (data? : Option Dict) (g' : G),
      base.add_node_data self.graph node_id (data?.getD []) = .ok g' →
      add_node_data base run self node_id data?
        = .ok { self with graph := g' }
            ((listenersFor self.callbacks EVENT_ADD_NODE_DATA).map
              (fun c => ⟨c, { self with graph := g' }, EVENT_ADD_NODE_DATA,
                [("node_id", .str node_id),
                 ("data", .dict (data?.getD []))]⟩))
            none) ∧
    (∀ (node_id key value : String) (g' : G),
      base.add_node_property self.graph node_id key value = .ok g' →
      add_node_property base run self node_id key value
        = .ok { self with graph := g' }
            ((listenersFor self.callbacks EVENT_ADD_NODE_PROPERTY).map
              (fun c => ⟨c, { self with graph := g' },
                EVENT_ADD_NODE_PROPERTY,
                [("node_id", .str node_id), ("key", .str key),
                 ("value", .str value)]⟩))
            none) ∧
    (∀ (from_id to_id edge_id label : String) (data? : Option Dict)
       (g' : G),
      base.add_edge self.graph from_id to_id edge_id label (data?.getD [])
        = .ok g' →
      add_edge base run self from_id to_id edge_id label data?
        = .ok { self with graph := g' }
            ((listenersFor self.callbacks EVENT_ADD_EDGE).map
              (fun c => ⟨c, { self with graph := g' }, EVENT_ADD_EDGE,
                [("from_id", .str from_id), ("to_id", .str to_id),
                 ("edge_id", .str edge_id), ("label", .str label),
                 ("data", .dict (data?.getD []))]⟩))
            none) ∧
    (∀ (from_id to_id edge_id : String) (data? : Option Dict) (g' : G),
      base.add_edge_data self.graph from_id to_id edge_id (data?.getD [])
        = .ok g' →
      add_edge_data base run self from_id to_id edge_id data?
        = .ok { self with graph := g' }
            ((listenersFor self.callbacks EVENT_ADD_EDGE_DATA).map
              (fun c => ⟨c, { self with graph := g' }, EVENT_ADD_EDGE_DATA,
                [("from_id", .str from_id), ("to_id", .str to_id),
                 ("edge_id", .str edge_id),
                 ("data", .dict (data?.getD []))]⟩))
            none) := by
  refine ⟨fun _ => rfl, fun _ => rfl, fun _ _ _ _ => rfl, fun _ _ _ => rfl,
    ?_, ?_, ?_, ?_, ?_⟩
  · intro node_id data? g' hb
    have hd := dispatch_all_ok run { self with graph := g' } EVENT_ADD_NODE
      [("node_id", .str node_id), ("data", .dict (data?.getD []))]
      (fun c _ => hrun _)
    simp only [add_node, hb, hd]
  · intro node_id data? g' hb
    have hd := dispatch_all_ok run { self with graph := g' }
      EVENT_ADD_NODE_DATA
      [("node_id", .str node_id), ("data", .dict (data?.getD []))]
      (fun c _ => hrun _)
    simp only [add_node_data, hb, hd]
  · intro node_id key value g' hb
    have hd := dispatch_all_ok run { self with graph := g' }
      EVENT_ADD_NODE_PROPERTY
      [("node_id", .str node_id), ("key", .str key), ("value", .str value)]
      (fun c _ => hrun _)
    simp only [add_node_property, hb, hd]
  · intro from_id to_id edge_id label data? g' hb
    have hd := dispatch_all_ok run { self with graph := g' } EVENT_ADD_EDGE
      [("from_id", .str from_id), ("to_id", .str to_id),
       ("edge_id", .str edge_id), ("label", .str label),
       ("data", .dict (data?.getD []))]
      (fun c _ => hrun _)
    simp only [add_edge, hb, hd]
  · intro from_id to_id edge_id data? g' hb
    have hd := dispatch_all_ok run { self with graph := g' }
      EVENT_ADD_EDGE_DATA
      [("from_id", .str from_id), ("to_id", .str to_id),
       ("edge_id", .str edge_id), ("data", .dict (data?.getD []))]
      (fun c _ => hrun _)
    simp only [add_edge_data, hb, hd]

/-- Witness for C3: on a succeeding base graph with one listener for
`add_node` and one for `add_edge`, the defaulting equation holds and each
mutation dispatches its schema payload. -/
theorem mutation_payload_schema_witness :
    add_node baseOk (L := Nat) (fun _ => none)
        ⟨[("add_node", [7]), ("add_edge", [9])], 0⟩ "n" none
      = add_node baseOk (fun _ => none)
          ⟨[("add_node", [7]), ("add_edge", [9])], 0⟩ "n" (some []) ∧
    add_node baseOk (L := Nat) (fun _ => none)
        ⟨[("add_node", [7]), ("add_edge", [9])], 0⟩ "n" none
      = .ok ⟨[("add_node", [7]), ("add_edge", [9])], 1⟩
          ((listenersFor [("add_node", [7]), ("add_edge", [9])]
              EVENT_ADD_NODE).map
            (fun c => ⟨c, ⟨[("add_node", [7]), ("add_edge", [9])], 1⟩,
              EVENT_ADD_NODE,
              [("node_id", .str "n"), ("data", .dict [])]⟩))
          none ∧
    add_edge baseOk (L := Nat) (fun _ => none)
        ⟨[("add_node", [7]), ("add_edge", [9])], 0⟩ "a" "b" "e1" "lbl" none
      = .ok ⟨[("add_node", [7]), ("add_edge", [9])], 4⟩
          ((listenersFor [("add_node", [7]), ("add_edge", [9])]
              EVENT_ADD_EDGE).map
            (fun c => ⟨c, ⟨[("add_node", [7]), ("add_edge", [9])], 4⟩,
              EVENT_ADD_EDGE,
              [("from_id", .str "a"), ("to_id", .str "b"),
               ("edge_id", .str "e1"), ("label", .str "lbl"),
               ("data", .dict [])]⟩))
          none := by
  have h := mutation_payload_schema baseOk (L := Nat) (fun _ => none)
    ⟨[("add_node", [7]), ("add_edge", [9])], 0⟩ (fun _ => rfl)
  exact ⟨h.1 "n", h.2.2.2.2.1 "n" none 1 rfl,
    h.2.2.2.2.2.2.2.1 "a" "b" "e1" "lbl" none 4 rfl⟩

/-- Claim C7: a listener that raises during dispatch is not caught — the
listeners registered after it for that kind are not invoked for that event,
and the error propagates to the caller of the mutation (shown at dispatch
level for every kind, and through the wrapped `add_node` mutation). -/
theorem listener_error_aborts {G L E : Type}
    (run : ListenerCall G L → Option E) :
    (∀ (self : EventfulNetwork G L) (e : String) (data : Dict)
       (l1 : List L) (c : L) (l2 : List L) (err : E),
      self.callbacks.find e = some (l1 ++ c :: l2) →
      (∀ x ∈ l1, run ⟨x, self, e, data⟩ = none) →
      run ⟨c, self, e, data⟩ = some err →
      dispatch_callbacks run self e data
        = (l1.map (fun x => ⟨x, self, e, data⟩) ++ [⟨c, self, e, data⟩],
           some err)) ∧
    (∀ (base : BaseOps G E) (self : EventfulNetwork G L)
       (node_id : String) (data? : Option Dict) (g' : G) (l1 : List L)
       (c : L) (l2 : List L) (err : E),
      base.add_node self.graph node_id (data?.getD []) = .ok g' →
      self.callbacks.find EVENT_ADD_NODE = some (l1 ++ c :: l2) →
      (∀ x ∈ l1, run ⟨x, { self with graph := g' }, EVENT_ADD_NODE,
        [("node_id", .str node_id), ("data", .dict (data?.getD []))]⟩
          = none) →
      run ⟨c, { self with graph := g' }, EVENT_ADD_NODE,
        [("node_id", .str node_id), ("data", .dict (data?.getD []))]⟩
        = some err →
      add_node base run self node_id data?
        = .ok { self with graph := g' }
            (l1.map (fun x => ⟨x, { self with graph := g' },
                EVENT_ADD_NODE,
                [("node_id", .str node_id),
                 ("data", .dict (data?.getD []))]⟩)
              ++ [⟨c, { self with graph := g' }, EVENT_ADD_NODE,
                [("node_id", .str node_id),
                 ("data", .dict (data?.getD []))]⟩])
            (some err)) := by
  constructor
  · intro self e data l1 c l2 err hf h1 hc
    have habort := runCallbacks_abort run self e data c l2 err l1 h1 hc
    simp only [dispatch_callbacks, hf, habort]
  · intro base self node_id data? g' l1 c l2 err hb hf h1 hc
    have hf' : ({ self with graph := g' } :
        EventfulNetwork G L).callbacks.find EVENT_ADD_NODE
        = some (l1 ++ c :: l2) := hf
    have habort := runCallbacks_abort run { self with graph := g' }
      EVENT_ADD_NODE
      [("node_id", .str node_id), ("data", .dict (data?.getD []))]
      c l2 err l1 h1 hc
    simp only [add_node, hb, dispatch_callbacks, hf', habort]

/-- Witness for C7: three listeners `[1, 2, 3]` for `add_node`; listener 2
raises, so listener 3 is never invoked and the error surfaces, both at
dispatch level and through the wrapped `add_node`. -/
theorem listener_error_aborts_witness :
    dispatch_callbacks (G := Nat) (E := String)
        (fun call => if call.listener = 2 then some "listener exploded"
          else none)
        ⟨[("add_node", [1, 2, 3])], 0⟩ "add_node" []
      = (([1] : List Nat).map
          (fun x => ⟨x, ⟨[("add_node", [1, 2, 3])], 0⟩, "add_node", []⟩)
          ++ [⟨2, ⟨[("add_node", [1, 2, 3])], 0⟩, "add_node", []⟩],
         some "listener exploded") ∧
    add_node baseOk
        (fun call => if call.listener = 2 then some "listener exploded"
          else none)
        ⟨[("add_node", [1, 2, 3])], 0⟩ "n" none
      = .ok ⟨[("add_node", [1, 2, 3])], 1⟩
          (([1] : List Nat).map
            (fun x => ⟨x, ⟨[("add_node", [1, 2, 3])], 1⟩, EVENT_ADD_NODE,
              [("node_id", .str "n"), ("data", .dict [])]⟩)
            ++ [⟨2, ⟨[("add_node", [1, 2, 3])], 1⟩, EVENT_ADD_NODE,
              [("node_id", .str "n"), ("data", .dict [])]⟩])
          (some "listener exploded") := by
  have h := listener_error_aborts (G := Nat) (E := String)
    (fun call => if call.listener = 2 then some "listener exploded"
      else none)
  constructor
  · refine h.1 ⟨[("add_node", [1, 2, 3])], 0⟩ "add_node" [] [1] 2 [3]
      "listener exploded" rfl ?_ rfl
    intro x hx
    rw [List.mem_singleton] at hx
    subst hx
    rfl
  · refine h.2 baseOk ⟨[("add_node", [1, 2, 3])], 0⟩ "n" none 1 [1] 2 [3]
      "listener exploded" rfl rfl ?_ rfl
    intro x hx
    rw [List.mem_singleton] at hx
    subst hx
    rfl

/-- Claim C5: `register_universal_callback` registers the listener for each of
the five fixed event kinds (appending it to each kind's sequence), fails
with the InvalidListener error (`ValueError`) when the argument is not
callable, and after it one mutation of each kind invokes the listener
exactly five times — once per kind, with that kind's payload. -/
theorem register_universal_spec {G L E : Type} (callable : L → Bool) :
    (∀ (self : EventfulNetwork G L) (cb : L), callable cb = false →
      register_universal_callback callable self cb
        = .error (PyError.valueError "callback must be callable")) ∧
    (∀ (self : EventfulNetwork G L) (cb : L), callable cb = true →
      register_universal_callback callable self cb
        = .ok (VALID_EVENTS.foldl
            (fun s e => { s with callbacks := appendCb s.callbacks e cb })
            self) ∧
      ∀ e ∈ VALID_EVENTS,
        listenersFor (VALID_EVENTS.foldl
            (fun s e' => { s with callbacks := appendCb s.callbacks e' cb })
            self).callbacks e
          = listenersFor self.callbacks e ++ [cb]) ∧
    (∀ (base : BaseOps G E) (run : ListenerCall G L → Option E) (g0 : G)
       (cb : L) (g1 g2 g3 g4 g5 : G), callable cb = true →
      (∀ call, run call = none) →
      base.add_node g0 "n1" [] = .ok g1 →
      base.add_node_data g1 "n1" [] = .ok g2 →
      base.add_node_property g2 "n1" "k" "v" = .ok g3 →
      base.add_edge g3 "a" "b" "e1" "lbl" [] = .ok g4 →
      base.add_edge_data g4 "a" "b" "e1" [] = .ok g5 →
      register_universal_callback callable ⟨[], g0⟩ cb
        = .ok ⟨universalRegistry cb, g0⟩ ∧
      add_node base run ⟨universalRegistry cb, g0⟩ "n1" none
        = .ok ⟨universalRegistry cb, g1⟩
            [⟨cb, ⟨universalRegistry cb, g1⟩, EVENT_ADD_NODE,
              [("node_id", .str "n1"), ("data", .dict [])]⟩] none ∧
      add_node_data base run ⟨universalRegistry cb, g1⟩ "n1" none
        = .ok ⟨universalRegistry cb, g2⟩
            [⟨cb, ⟨universalRegistry cb, g2⟩, EVENT_ADD_NODE_DATA,
              [("node_id", .str "n1"), ("data", .dict [])]⟩] none ∧
      add_node_property base run ⟨universalRegistry cb, g2⟩ "n1" "k" "v"
        = .ok ⟨universalRegistry cb, g3⟩
            [⟨cb, ⟨universalRegistry cb, g3⟩, EVENT_ADD_NODE_PROPERTY,
              [("node_id", .str "n1"), ("key", .str "k"),
               ("value", .str "v")]⟩] none ∧
      add_edge base run ⟨universalRegistry cb, g3⟩ "a" "b" "e1" "lbl" none
        = .ok ⟨universalRegistry cb, g4⟩
            [⟨cb, ⟨universalRegistry cb, g4⟩, EVENT_ADD_EDGE,
              [("from_id", .str "a"), ("to_id", .str "b"),
               ("edge_id", .str "e1"), ("label", .str "lbl"),
               ("data", .dict [])]⟩] none ∧
      add_edge_data base run ⟨universalRegistry cb, g4⟩ "a" "b" "e1" none
        = .ok ⟨universalRegistry cb, g5⟩
            [⟨cb, ⟨universalRegistry cb, g5⟩, EVENT_ADD_EDGE_DATA,
              [("from_id", .str "a"), ("to_id", .str "b"),
               ("edge_id", .str "e1"), ("data", .dict [])]⟩] none) := by
  have hreg : ∀ (cb : L), callable cb = true →
      ∀ (self : EventfulNetwork G L),
      register_universal_callback callable self cb
        = .ok (VALID_EVENTS.foldl
            (fun s e => { s with callbacks := appendCb s.callbacks e cb })
            self) := by
    intro cb hcb self
    have hrc : ∀ (s : EventfulNetwork G L) (e : String),
        register_callback callable s e cb
          = .ok { s with callbacks := appendCb s.callbacks e cb } :=
      fun s e => register_callback_ok callable s e cb hcb
    have step : ∀ (s : EventfulNetwork G L) (e : String) (l : List String),
        List.foldlM (fun s' e' => register_callback callable s' e' cb)
            s (e :: l)
          = List.foldlM (fun s' e' => register_callback callable s' e' cb)
              { s with callbacks := appendCb s.callbacks e cb } l := by
      intro s e l
      rw [List.foldlM_cons, hrc s e]
      rfl
    rw [register_universal_callback, hcb]
    simp only [VALID_EVENTS]
    rw [step, step, step, step, step, List.foldlM_nil]
    rfl
  refine ⟨?_, ?_, ?_⟩
  · intro self cb hcb
    rw [register_universal_callback, hcb]
    rfl
  · intro self cb hcb
    refine ⟨hreg cb hcb self, ?_⟩
    intro e he
    simp only [VALID_EVENTS, List.mem_cons, List.not_mem_nil, or_false]
      at he
    have hfold : (VALID_EVENTS.foldl
        (fun s e' => { s with callbacks := appendCb s.callbacks e' cb })
        self).callbacks
        = appendCb (appendCb (appendCb (appendCb (appendCb
            self.callbacks EVENT_ADD_NODE cb) EVENT_ADD_NODE_DATA cb)
            EVENT_ADD_NODE_PROPERTY cb) EVENT_ADD_EDGE cb)
            EVENT_ADD_EDGE_DATA cb := rfl
    rw [hfold]
    rcases he with rfl | rfl | rfl | rfl | rfl
    · rw [listenersFor_appendCb_other _ _ _ _ (by decide),
        listenersFor_appendCb_other _ _ _ _ (by decide),
        listenersFor_appendCb_other _ _ _ _ (by decide),
        listenersFor_appendCb_other _ _ _ _ (by decide),
        listenersFor_appendCb_self]
    · rw [listenersFor_appendCb_other _ _ _ _ (by decide),
        listenersFor_appendCb_other _ _ _ _ (by decide),
        listenersFor_appendCb_other _ _ _ _ (by decide),
        listenersFor_appendCb_self,
        listenersFor_appendCb_other _ _ _ _ (by decide)]
    · rw [listenersFor_appendCb_other _ _ _ _ (by decide),
        listenersFor_appendCb_other _ _ _ _ (by decide),
        listenersFor_appendCb_self,
        listenersFor_appendCb_other _ _ _ _ (by decide),
        listenersFor_appendCb_other _ _ _ _ (by decide)]
    · rw [listenersFor_appendCb_other _ _ _ _ (by decide),
        listenersFor_appendCb_self,
        listenersFor_appendCb_other _ _ _ _ (by decide),
        listenersFor_appendCb_other _ _ _ _ (by decide),
        listenersFor_appendCb_other _ _ _ _ (by decide)]
    · rw [listenersFor_appendCb_self,
        listenersFor_appendCb_other _ _ _ _ (by decide),
        listenersFor_appendCb_other _ _ _ _ (by decide),
        listenersFor_appendCb_other _ _ _ _ (by decide),
        listenersFor_appendCb_other _ _ _ _ (by decide)]
  · intro base run g0 cb g1 g2 g3 g4 g5 hcb hrun hb1 hb2 hb3 hb4 hb5
    have hu : register_universal_callback callable
        (⟨[], g0⟩ : EventfulNetwork G L) cb
        = .ok ⟨universalRegistry cb, g0⟩ := by
      rw [hreg cb hcb ⟨[], g0⟩]
      rfl
    have hd1 := dispatch_all_ok run
      (⟨universalRegistry cb, g1⟩ : EventfulNetwork G L) EVENT_ADD_NODE
      [("node_id", .str "n1"), ("data", .dict [])] (fun c _ => hrun _)
    have hd2 := dispatch_all_ok run
      (⟨universalRegistry cb, g2⟩ : EventfulNetwork G L)
      EVENT_ADD_NODE_DATA
      [("node_id", .str "n1"), ("data", .dict [])] (fun c _ => hrun _)
    have hd3 := dispatch_all_ok run
      (⟨universalRegistry cb, g3⟩ : EventfulNetwork G L)
      EVENT_ADD_NODE_PROPERTY
      [("node_id", .str "n1"), ("key", .str "k"), ("value", .str "v")]
      (fun c _ => hrun _)
    have hd4 := dispatch_all_ok run
      (⟨universalRegistry cb, g4⟩ : EventfulNetwork G L) EVENT_ADD_EDGE
      [("from_id", .str "a"), ("to_id", .str "b"), ("edge_id", .str "e1"),
       ("label", .str "lbl"), ("data", .dict [])] (fun c _ => hrun _)
    have hd5 := dispatch_all_ok run
      (⟨universalRegistry cb, g5⟩ : EventfulNetwork G L)
      EVENT_ADD_EDGE_DATA
      [("from_id", .str "a"), ("to_id", .str "b"), ("edge_id", .str "e1"),
       ("data", .dict [])] (fun c _ => hrun _)
    refine ⟨hu, ?_, ?_, ?_, ?_, ?_⟩
    · simp only [add_node, Option.getD_none, hb1, hd1]
      rfl
    · simp only [add_node_data, Option.getD_none, hb2, hd2]
      rfl
    · simp only [add_node_property, Option.getD_none, hb3, hd3]
      rfl
    · simp only [add_edge, Option.getD_none, hb4, hd4]
      rfl
    · simp only [add_edge_data, Option.getD_none, hb5, hd5]
      rfl

/-- Witness for C5: universal registration of listener `7` on a fresh
network over the concrete succeeding base graph, followed by one mutation
of each kind; plus the non-callable failure at a concrete argument. -/
theorem register_universal_spec_witness :
    register_universal_callback (G := Nat) (fun _ => false)
        ⟨[], 0⟩ (7 : Nat)
      = .error (PyError.valueError "callback must be callable") ∧
    register_universal_callback (G := Nat) (fun _ => true)
        ⟨[], 0⟩ (7 : Nat)
      = .ok ⟨universalRegistry 7, 0⟩ ∧
    add_node baseOk (fun _ => none) ⟨universalRegistry 7, 0⟩ "n1" none
      = .ok ⟨universalRegistry 7, 1⟩
          [⟨7, ⟨universalRegistry 7, 1⟩, EVENT_ADD_NODE,
            [("node_id", .str "n1"), ("data", .dict [])]⟩] none ∧
    add_node_data baseOk (fun _ => none) ⟨universalRegistry 7, 1⟩ "n1" none
      = .ok ⟨universalRegistry 7, 3⟩
          [⟨7, ⟨universalRegistry 7, 3⟩, EVENT_ADD_NODE_DATA,
            [("node_id", .str "n1"), ("data", .dict [])]⟩] none ∧
    add_node_property baseOk (fun _ => none) ⟨universalRegistry 7, 3⟩
        "n1" "k" "v"
      = .ok ⟨universalRegistry 7, 6⟩
          [⟨7, ⟨universalRegistry 7, 6⟩, EVENT_ADD_NODE_PROPERTY,
            [("node_id", .str "n1"), ("key", .str "k"),
             ("value", .str "v")]⟩] none ∧
    add_edge baseOk (fun _ => none) ⟨universalRegistry 7, 6⟩
        "a" "b" "e1" "lbl" none
      = .ok ⟨universalRegistry 7, 10⟩
          [⟨7, ⟨universalRegistry 7, 10⟩, EVENT_ADD_EDGE,
            [("from_id", .str "a"), ("to_id", .str "b"),
             ("edge_id", .str "e1"), ("label", .str "lbl"),
             ("data", .dict [])]⟩] none ∧
    add_edge_data baseOk (fun _ => none) ⟨universalRegistry 7, 10⟩
        "a" "b" "e1" none
      = .ok ⟨universalRegistry 7, 15⟩
          [⟨7, ⟨universalRegistry 7, 15⟩, EVENT_ADD_EDGE_DATA,
            [("from_id", .str "a"), ("to_id", .str "b"),
             ("edge_id", .str "e1"), ("data", .dict [])]⟩] none := by
  have hfail := (register_universal_spec (G := Nat) (E := String)
    (fun _ => false)).1 ⟨[], 0⟩ (7 : Nat) rfl
  have h := (register_universal_spec (G := Nat) (E := String)
    (fun _ => true)).2.2 baseOk (fun _ => none) 0 (7 : Nat) 1 3 6 10 15
    rfl (fun _ => rfl) rfl rfl rfl rfl rfl
  exact ⟨hfail, h.1, h.2.1, h.2.2.1, h.2.2.2.1, h.2.2.2.2.1, h.2.2.2.2.2⟩

end GraphNotebook
